import Mathlib

/-!
Verification of the screenshot capture script (src/screenshot.py).

The script drives a headless Chrome session via Selenium: it parses up to
three positional arguments (URL, output filename, CSS selector), normalizes
the output filename, opens a browser session, navigates, waits for the
document body, sleeps 2.5 s, then either captures one element (selector
path, with fallback to full page on any exception) or captures the full
page after resizing the window to the maximum content dimensions.

The embedding below models every external call outcome through an `Env` record
and records the script's observable actions as an event trace, together
with an `Outcome` describing how the process ends (normal return / explicit
process exit via sys.exit / an uncaught propagated exception).
-/

namespace Screenshot

/-- Observable actions of the script, in program order: console prints,
Selenium calls, sleeps, and the capture calls. Each `print*` event stands
for the corresponding `print(...)` line of the source. -/
inductive Event where
  | printTarget (url : String)
  | printOutput (path : String)
  | printSelector (sel : String)
  | acquireSession
  | navigate (url : String)
  | waitBody (timeoutSec : Nat)
  | sleepMs (ms : Nat)
  | waitSelector (sel : String) (timeoutSec : Nat)
  | scrollIntoViewCenter
  | elementCapture (path : String)
  | printElementSaved (path : String) (sizeBytes : Nat)
  | warnSelectorFallback (sel : String) (err : String)
  | printPageDims (w h : Int)
  | setWindowSize (w h : Int)
  | fullCapture (path : String)
  | printSaved (path : String) (sizeBytes : Nat)
  | printFailed
  | quitSession
  deriving DecidableEq, Repr

/-- How the process ends: normal return (process exit status 0), an
explicit `sys.exit n`, or an exception propagating out of
`take_screenshot` (uncaught). -/
inductive Outcome where
  | normal
  | exitCode (n : Nat)
  | raised (e : String)
  deriving DecidableEq, Repr

/-- Outcomes of the external (browser / DOM / filesystem) calls the script
makes, fixed before the run: `some e` means the call raises exception `e`,
`none` means it succeeds. The twelve `Int` fields are the DOM box metrics
returned by the two `execute_script` geometry queries of `_full_page`. -/
structure Env where
  navErr : Option String
  bodyErr : Option String
  selErr : Option String
  scrollErr : Option String
  elemShotErr : Option String
  elemSizeBytes : Nat
  bodyScrollW : Int
  docScrollW : Int
  bodyOffsetW : Int
  docOffsetW : Int
  bodyClientW : Int
  docClientW : Int
  bodyScrollH : Int
  docScrollH : Int
  bodyOffsetH : Int
  docOffsetH : Int
  bodyClientH : Int
  docClientH : Int
  fullShotOk : Bool
  fullSizeBytes : Nat
  deriving DecidableEq, Repr

/-- The fixed fallback URL used when no URL argument is supplied. -/
def defaultUrl : String := "https://nidl3r.github.io/PCC-KDS/"

/-- Argument parsing: `sys.argv[1]`, `sys.argv[2]`, `sys.argv[3]` with
defaults; `args` is the argument list after the script name. -/
def parseArgs (args : List String) : String × String × String :=
  (args.getD 0 defaultUrl, args.getD 1 "screenshot.png", args.getD 2 "")

/-- Embedding of Python `str.lower()` (character-wise lowering). -/
def pyLower (s : String) : String := ⟨s.data.map Char.toLower⟩

/-- Embedding of Python `str.endswith(suf)`: suffix test on the character
sequence. -/
def pyEndsWith (s suf : String) : Bool := suf.data.isSuffixOf s.data

/-- Output filename normalization (module level, lines 31-33):
append ".png" unless the lowercase form already ends with ".png". -/
def normalizeOutput (out : String) : String :=
  if pyEndsWith (pyLower out) ".png" then out else out ++ ".png"

/-- The Chrome options configured by `build_options`. -/
def buildOptions : List String :=
  ["--headless=new", "--no-sandbox", "--disable-dev-shm-usage", "--disable-gpu",
   "--hide-scrollbars", "--window-size=1440,900", "--force-device-scale-factor=1"]

/-- `total_width` of `_full_page`: `Math.max` over body/documentElement
scrollWidth, offsetWidth, clientWidth, in source order. -/
def totalWidth (env : Env) : Int :=
  max env.bodyScrollW (max env.docScrollW (max env.bodyOffsetW
    (max env.docOffsetW (max env.bodyClientW env.docClientW))))

/-- `total_height` of `_full_page`: `Math.max` over body/documentElement
scrollHeight, offsetHeight, clientHeight, in source order. -/
def totalHeight (env : Env) : Int :=
  max env.bodyScrollH (max env.docScrollH (max env.bodyOffsetH
    (max env.docOffsetH (max env.bodyClientH env.docClientH))))

/-- `_full_page(driver, output)` (lines 90-110): query the page geometry,
print it, resize the window to exactly `total_width x total_height`, sleep
0.5 s, capture the viewport; on capture success print the saved file size,
otherwise print a failure line and `sys.exit(1)`. -/
def fullPage (env : Env) (output : String) : List Event × Outcome :=
  let w := totalWidth env
  let h := totalHeight env
  let evs := [Event.printPageDims w h, Event.setWindowSize w h, Event.sleepMs 500,
              Event.fullCapture output]
  if env.fullShotOk then
    (evs ++ [Event.printSaved output env.fullSizeBytes], Outcome.normal)
  else
    (evs ++ [Event.printFailed], Outcome.exitCode 1)

/-- The element-targeted branch (lines 69-81): a `try` around selector
wait, scroll-into-view, 0.5 s sleep, element capture, and the size print;
`except Exception` prints a warning naming the selector and the error, then
calls `_full_page` on the same session. -/
def selectorBranch (env : Env) (output sel : String) : List Event × Outcome :=
  match env.selErr with
  | some e =>
      let fp := fullPage env output
      (Event.waitSelector sel 10 :: Event.warnSelectorFallback sel e :: fp.1, fp.2)
  | none =>
    match env.scrollErr with
    | some e =>
        let fp := fullPage env output
        (Event.waitSelector sel 10 :: Event.scrollIntoViewCenter ::
          Event.warnSelectorFallback sel e :: fp.1, fp.2)
    | none =>
      match env.elemShotErr with
      | some e =>
          let fp := fullPage env output
          (Event.waitSelector sel 10 :: Event.scrollIntoViewCenter :: Event.sleepMs 500 ::
            Event.elementCapture output :: Event.warnSelectorFallback sel e :: fp.1, fp.2)
      | none =>
          ([Event.waitSelector sel 10, Event.scrollIntoViewCenter, Event.sleepMs 500,
            Event.elementCapture output, Event.printElementSaved output env.elemSizeBytes],
           Outcome.normal)

/-- The header prints of `take_screenshot` (lines 49-52) and the session
acquisition (line 54): target and output are always printed, the selector
line only when the selector is non-empty. -/
def headerEvents (url output sel : String) : List Event :=
  [Event.printTarget url, Event.printOutput output]
    ++ (if sel = "" then [] else [Event.printSelector sel]) ++ [Event.acquireSession]

/-- The `try` block of `take_screenshot` (lines 56-84): navigation, the
20 s body wait, the 2.5 s settle sleep, then the selector branch when a
selector was supplied, otherwise `_full_page` directly. A raising call
stops the block with `Outcome.raised`. -/
def tryBody (env : Env) (url output sel : String) : List Event × Outcome :=
  match env.navErr with
  | some e => ([Event.navigate url], Outcome.raised e)
  | none =>
    match env.bodyErr with
    | some e => ([Event.navigate url, Event.waitBody 20], Outcome.raised e)
    | none =>
      let branch := if sel = "" then fullPage env output else selectorBranch env output sel
      (Event.navigate url :: Event.waitBody 20 :: Event.sleepMs 2500 :: branch.1, branch.2)

/-- `take_screenshot(url, output, selector)` (lines 48-87): header prints,
session acquisition, then the `try` block, with `finally: driver.quit()`
appending the session teardown on every path. -/
def takeScreenshot (env : Env) (url output sel : String) : List Event × Outcome :=
  (headerEvents url output sel ++ (tryBody env url output sel).1 ++ [Event.quitSession],
   (tryBody env url output sel).2)

/-- The module entry point: parse the arguments, normalize the output
filename, then run `take_screenshot(URL, OUTPUT, SELECTOR)`. -/
def runMain (env : Env) (args : List String) : List Event × Outcome :=
  match parseArgs args with
  | (url, out, sel) => takeScreenshot env url (normalizeOutput out) sel

/-! ### Helper lemmas -/

lemma pyEndsWith_iff (s suf : String) :
    pyEndsWith s suf = true ↔ suf.data <:+ s.data := by
  simp [pyEndsWith]

lemma pyLower_data (s : String) : (pyLower s).data = s.data.map Char.toLower := rfl

lemma pyLower_append_data (s t : String) :
    (pyLower (s ++ t)).data = (pyLower s).data ++ (pyLower t).data := by
  simp [pyLower_data, String.data_append]

lemma png_map_toLower : (".png" : String).data.map Char.toLower = (".png" : String).data := by
  decide

lemma pngUpper_map_toLower :
    (".PNG" : String).data.map Char.toLower = (".png" : String).data := by
  decide

/-! ### C4: output filename normalization -/

/-- C4: if the lowercase form of the output filename does not end with
".png", normalization appends ".png"; a filename already ending in ".png"
or ".PNG" is left unchanged; and for any input not ending in ".png"
(case-insensitively), the normalized path ends in ".png" but not in
".png.png" (exactly one ".png" suffix). -/
theorem c4_normalize_output (s : String) :
    (pyEndsWith (pyLower s) ".png" = true → normalizeOutput s = s)
    ∧ ((pyEndsWith s ".png" = true ∨ pyEndsWith s ".PNG" = true) → normalizeOutput s = s)
    ∧ (pyEndsWith (pyLower s) ".png" = false →
        normalizeOutput s = s ++ ".png"
        ∧ pyEndsWith (pyLower (normalizeOutput s)) ".png" = true
        ∧ pyEndsWith (pyLower (normalizeOutput s)) ".png.png" = false) := by
  refine ⟨fun h => by simp [normalizeOutput, h], fun h => ?_, fun h => ?_⟩
  · have hl : pyEndsWith (pyLower s) ".png" = true := by
      rw [pyEndsWith_iff, pyLower_data]
      rcases h with h | h
      · have := List.IsSuffix.map Char.toLower ((pyEndsWith_iff s ".png").mp h)
        rwa [png_map_toLower] at this
      · have := List.IsSuffix.map Char.toLower ((pyEndsWith_iff s ".PNG").mp h)
        rwa [pngUpper_map_toLower] at this
    simp [normalizeOutput, hl]
  · have hnorm : normalizeOutput s = s ++ ".png" := by simp [normalizeOutput, h]
    refine ⟨hnorm, ?_, ?_⟩
    · rw [hnorm, pyEndsWith_iff, pyLower_append_data]
      have : (pyLower ".png").data = (".png" : String).data := by
        rw [pyLower_data, png_map_toLower]
      rw [this]
      exact List.suffix_append _ _
    · rw [hnorm, Bool.eq_false_iff]
      intro hsuf
      rw [pyEndsWith_iff, pyLower_append_data] at hsuf
      have hplow : (pyLower ".png").data = (".png" : String).data := by
        rw [pyLower_data, png_map_toLower]
      rw [hplow] at hsuf
      have hsplit : (".png.png" : String).data
          = (".png" : String).data ++ (".png" : String).data := by decide
      rw [hsplit] at hsuf
      obtain ⟨t, ht⟩ := hsuf
      rw [← List.append_assoc] at ht
      have hs : (pyLower s).data = t ++ (".png" : String).data :=
        (List.append_left_inj _).mp ht.symm
      have : pyEndsWith (pyLower s) ".png" = true := by
        rw [pyEndsWith_iff, hs]
        exact List.suffix_append _ _
      rw [this] at h
      exact Bool.noConfusion h

/-- C4 witness: concrete evaluations at "file" (no ".png" suffix) and
"pic.PNG" (uppercase suffix, left unchanged). -/
theorem c4_normalize_output_witness :
    normalizeOutput "file" = "file.png"
    ∧ normalizeOutput "pic.PNG" = "pic.PNG"
    ∧ pyEndsWith (pyLower (normalizeOutput "file")) ".png" = true
    ∧ pyEndsWith (pyLower (normalizeOutput "file")) ".png.png" = false := by
  have h1 := c4_normalize_output "file"
  have h2 := c4_normalize_output "pic.PNG"
  exact ⟨(h1.2.2 (by decide)).1, h2.2.1 (Or.inr (by decide)),
    (h1.2.2 (by decide)).2.1, (h1.2.2 (by decide)).2.2⟩

/-! ### Concrete environments for witnesses -/

/-- A fully successful run whose DOM metrics give total width 2000 and
total height 5000. Fields in declaration order: navErr, bodyErr, selErr,
scrollErr, elemShotErr, elemSizeBytes, the six width metrics, the six
height metrics, fullShotOk, fullSizeBytes. -/
def okEnv : Env :=
  ⟨none, none, none, none, none, 2048,
   2000, 800, 1440, 1440, 1440, 1440,
   5000, 900, 900, 900, 900, 900,
   true, 4096⟩

/-- Like `okEnv` but the selector wait raises. -/
def selFailEnv : Env :=
  ⟨none, none, some "timeout", none, none, 2048,
   2000, 800, 1440, 1440, 1440, 1440,
   5000, 900, 900, 900, 900, 900,
   true, 4096⟩

/-- Like `okEnv` but the element screenshot call raises. -/
def elemShotFailEnv : Env :=
  ⟨none, none, none, none, some "shot failed", 2048,
   2000, 800, 1440, 1440, 1440, 1440,
   5000, 900, 900, 900, 900, 900,
   true, 4096⟩

/-- Like `okEnv` but the full-page capture call reports failure. -/
def capFailEnv : Env :=
  ⟨none, none, none, none, none, 2048,
   2000, 800, 1440, 1440, 1440, 1440,
   5000, 900, 900, 900, 900, 900,
   false, 4096⟩

/-- Like `okEnv` but the 20-second body wait times out. -/
def bodyFailEnv : Env :=
  ⟨none, some "body timeout", none, none, none, 2048,
   2000, 800, 1440, 1440, 1440, 1440,
   5000, 900, 900, 900, 900, 900,
   true, 4096⟩

/-! ### C1: full-page geometry and viewport resize -/

/-- C1: on the full-page path (no selector, navigation and body wait
succeed), the script resizes the window to exactly the maximum computed
content width x height, and the resize event strictly precedes the
full-page capture call in the trace. -/
theorem c1_fullpage_resize (env : Env) (url out : String)
    (hn : env.navErr = none) (hb : env.bodyErr = none) :
    ∃ l r, (takeScreenshot env url out "").1
        = l ++ Event.setWindowSize (totalWidth env) (totalHeight env) :: r
      ∧ Event.fullCapture out ∈ r := by
  cases hfs : env.fullShotOk
  · refine ⟨[Event.printTarget url, Event.printOutput out, Event.acquireSession,
      Event.navigate url, Event.waitBody 20, Event.sleepMs 2500,
      Event.printPageDims (totalWidth env) (totalHeight env)],
      [Event.sleepMs 500, Event.fullCapture out, Event.printFailed, Event.quitSession],
      ?_, by simp⟩
    simp [takeScreenshot, headerEvents, tryBody, fullPage, hn, hb, hfs]
  · refine ⟨[Event.printTarget url, Event.printOutput out, Event.acquireSession,
      Event.navigate url, Event.waitBody 20, Event.sleepMs 2500,
      Event.printPageDims (totalWidth env) (totalHeight env)],
      [Event.sleepMs 500, Event.fullCapture out,
       Event.printSaved out env.fullSizeBytes, Event.quitSession],
      ?_, by simp⟩
    simp [takeScreenshot, headerEvents, tryBody, fullPage, hn, hb, hfs]

/-- C1 witness: with DOM metrics whose maxima are 2000 and 5000, the run
resizes to exactly 2000 x 5000 before the capture call. -/
theorem c1_fullpage_resize_witness :
    ∃ l r, (takeScreenshot okEnv "https://example.com" "shot.png" "").1
        = l ++ Event.setWindowSize 2000 5000 :: r
      ∧ Event.fullCapture "shot.png" ∈ r := by
  have h := c1_fullpage_resize okEnv "https://example.com" "shot.png" rfl rfl
  have hw : totalWidth okEnv = 2000 := by decide
  have hh : totalHeight okEnv = 5000 := by decide
  rw [hw, hh] at h
  exact h

/-! ### C3: full-page capture failure handling -/

/-- C3: every run reaching the full-page capture call either ends with an
explicit process exit status 1 and a failure message (capture reported
failure) or returns normally (exit 0) after printing the written file's
size; no exception is raised by this routine, and `take_screenshot`
propagates its outcome on the no-selector path. -/
theorem c3_fullpage_outcome (env : Env) (url out : String) :
    ((fullPage env out).2
      = if env.fullShotOk then Outcome.normal else Outcome.exitCode 1)
    ∧ (if env.fullShotOk
        then Event.printSaved out env.fullSizeBytes ∈ (fullPage env out).1
        else Event.printFailed ∈ (fullPage env out).1)
    ∧ (∀ e, (fullPage env out).2 ≠ Outcome.raised e)
    ∧ (env.navErr = none → env.bodyErr = none →
        (takeScreenshot env url out "").2 = (fullPage env out).2) := by
  refine ⟨?_, ?_, ?_, ?_⟩
  · cases hfs : env.fullShotOk <;> simp [fullPage, hfs]
  · cases hfs : env.fullShotOk <;> simp [fullPage, hfs]
  · intro e
    cases hfs : env.fullShotOk <;> simp [fullPage, hfs]
  · intro hn hb
    simp [takeScreenshot, tryBody, hn, hb]

/-- C3 witness: when the capture call reports failure the process exits
with status 1 and a failure line is printed; on the successful environment
the outcome is a normal return. -/
theorem c3_fullpage_outcome_witness :
    (fullPage capFailEnv "o.png").2 = Outcome.exitCode 1
    ∧ Event.printFailed ∈ (fullPage capFailEnv "o.png").1
    ∧ (takeScreenshot capFailEnv "u" "o.png" "").2 = Outcome.exitCode 1
    ∧ (fullPage okEnv "o.png").2 = Outcome.normal := by
  have h1 := c3_fullpage_outcome capFailEnv "u" "o.png"
  have h2 := c3_fullpage_outcome okEnv "u" "o.png"
  refine ⟨?_, ?_, ?_, ?_⟩
  · simpa using h1.1
  · simpa using h1.2.1
  · rw [h1.2.2.2 rfl rfl]
    simpa using h1.1
  · simpa using h2.1

/-! ### C2: selector resolution failure falls back to full page -/

/-- C2: when a non-empty selector is supplied and resolving it fails (the
10 s wait raises, or the scroll-into-view call raises), the run prints a
warning naming the selector and the error, reaches the full-page capture
call on the same session, never ends in an uncaught exception, and returns
normally (exit 0) whenever the full-page capture succeeds. -/
theorem c2_selector_fallback (env : Env) (url out sel e : String)
    (hs : sel ≠ "") (hn : env.navErr = none) (hb : env.bodyErr = none)
    (he : env.selErr = some e ∨ (env.selErr = none ∧ env.scrollErr = some e)) :
    Event.warnSelectorFallback sel e ∈ (takeScreenshot env url out sel).1
    ∧ Event.fullCapture out ∈ (takeScreenshot env url out sel).1
    ∧ (∀ e2, (takeScreenshot env url out sel).2 ≠ Outcome.raised e2)
    ∧ (env.fullShotOk = true → (takeScreenshot env url out sel).2 = Outcome.normal) := by
  rcases he with he | ⟨he1, he2⟩
  · cases hfs : env.fullShotOk <;>
      simp [takeScreenshot, headerEvents, tryBody, selectorBranch, fullPage,
        hn, hb, hs, he, hfs]
  · cases hfs : env.fullShotOk <;>
      simp [takeScreenshot, headerEvents, tryBody, selectorBranch, fullPage,
        hn, hb, hs, he1, he2, hfs]

/-- C2 witness: a selector whose wait times out on an otherwise successful
run produces the warning, reaches full-page capture and exits normally. -/
theorem c2_selector_fallback_witness :
    Event.warnSelectorFallback "#main" "timeout"
      ∈ (takeScreenshot selFailEnv "u" "o.png" "#main").1
    ∧ Event.fullCapture "o.png" ∈ (takeScreenshot selFailEnv "u" "o.png" "#main").1
    ∧ (takeScreenshot selFailEnv "u" "o.png" "#main").2 = Outcome.normal := by
  have h := c2_selector_fallback selFailEnv "u" "o.png" "#main" "timeout"
    (by decide) rfl rfl (Or.inl rfl)
  exact ⟨h.1, h.2.1, h.2.2.2 rfl⟩

/-! ### C5: the browser session is always released exactly once -/

lemma quitSession_not_mem_fullPage (env : Env) (out : String) :
    Event.quitSession ∉ (fullPage env out).1 := by
  cases hfs : env.fullShotOk <;> simp [fullPage, hfs]

lemma quitSession_not_mem_selectorBranch (env : Env) (out sel : String) :
    Event.quitSession ∉ (selectorBranch env out sel).1 := by
  unfold selectorBranch
  cases hse : env.selErr
  · cases hsc : env.scrollErr
    · cases hes : env.elemShotErr
      · simp
      · simp [quitSession_not_mem_fullPage]
    · simp [quitSession_not_mem_fullPage]
  · simp [quitSession_not_mem_fullPage]

lemma quitSession_not_mem_headerEvents (url out sel : String) :
    Event.quitSession ∉ headerEvents url out sel := by
  by_cases hsel : sel = "" <;> simp [headerEvents, hsel]

lemma quitSession_not_mem_tryBody (env : Env) (url out sel : String) :
    Event.quitSession ∉ (tryBody env url out sel).1 := by
  unfold tryBody
  cases hn : env.navErr
  · cases hb : env.bodyErr
    · by_cases hsel : sel = "" <;>
        simp [hsel, quitSession_not_mem_fullPage, quitSession_not_mem_selectorBranch]
    · simp
  · simp

lemma count_getLast_concat (hdr evs : List Event)
    (h1 : Event.quitSession ∉ hdr) (h2 : Event.quitSession ∉ evs) :
    (hdr ++ evs ++ [Event.quitSession]).count Event.quitSession = 1
    ∧ (hdr ++ evs ++ [Event.quitSession]).getLast? = some Event.quitSession := by
  constructor
  · rw [List.count_append, List.count_append,
      List.count_eq_zero.mpr h1, List.count_eq_zero.mpr h2]
    simp
  · exact List.getLast?_concat _

/-- C5: on every run — whatever the outcomes of navigation, the body wait,
selector resolution, element capture or the full-page capture — the trace
contains the session teardown exactly once, and it is the last action
before the program returns. -/
theorem c5_session_released (env : Env) (url out sel : String) :
    (takeScreenshot env url out sel).1.count Event.quitSession = 1
    ∧ (takeScreenshot env url out sel).1.getLast? = some Event.quitSession := by
  exact count_getLast_concat _ _
    (quitSession_not_mem_headerEvents url out sel)
    (quitSession_not_mem_tryBody env url out sel)

/-! ### C6: element-targeted capture -/

/-- C6: when the selector wait succeeds and nothing on the element path
raises, the run is exactly: header prints, session acquisition, navigation,
body wait, 2.5 s sleep, selector wait, scroll-into-center, 0.5 s sleep,
element capture to the output path, size print, session teardown — with a
normal return and no full-page capture or window resize anywhere. -/
theorem c6_element_capture (env : Env) (url out sel : String)
    (hs : sel ≠ "") (hn : env.navErr = none) (hb : env.bodyErr = none)
    (hse : env.selErr = none) (hsc : env.scrollErr = none)
    (hes : env.elemShotErr = none) :
    takeScreenshot env url out sel
      = ([Event.printTarget url, Event.printOutput out, Event.printSelector sel,
          Event.acquireSession, Event.navigate url, Event.waitBody 20,
          Event.sleepMs 2500, Event.waitSelector sel 10, Event.scrollIntoViewCenter,
          Event.sleepMs 500, Event.elementCapture out,
          Event.printElementSaved out env.elemSizeBytes, Event.quitSession],
         Outcome.normal)
    ∧ (∀ p, Event.fullCapture p ∉ (takeScreenshot env url out sel).1)
    ∧ (∀ w h, Event.setWindowSize w h ∉ (takeScreenshot env url out sel).1) := by
  have htr : takeScreenshot env url out sel
      = ([Event.printTarget url, Event.printOutput out, Event.printSelector sel,
          Event.acquireSession, Event.navigate url, Event.waitBody 20,
          Event.sleepMs 2500, Event.waitSelector sel 10, Event.scrollIntoViewCenter,
          Event.sleepMs 500, Event.elementCapture out,
          Event.printElementSaved out env.elemSizeBytes, Event.quitSession],
         Outcome.normal) := by
    simp [takeScreenshot, headerEvents, tryBody, selectorBranch,
      hn, hb, hs, hse, hsc, hes]
  refine ⟨htr, fun p => ?_, fun w h => ?_⟩ <;> rw [htr] <;> simp

/-- C6 witness: concrete element-targeted run on a fully successful
environment. -/
theorem c6_element_capture_witness :
    takeScreenshot okEnv "u" "o.png" "#main"
      = ([Event.printTarget "u", Event.printOutput "o.png", Event.printSelector "#main",
          Event.acquireSession, Event.navigate "u", Event.waitBody 20,
          Event.sleepMs 2500, Event.waitSelector "#main" 10, Event.scrollIntoViewCenter,
          Event.sleepMs 500, Event.elementCapture "o.png",
          Event.printElementSaved "o.png" 2048, Event.quitSession],
         Outcome.normal) := by
  have h := c6_element_capture okEnv "u" "o.png" "#main" (by decide) rfl rfl rfl rfl rfl
  simpa using h.1

/-! ### C7: the 20-second body wait -/

/-- C7: on every run where navigation succeeds, the trace performs the
20 s body wait; if the body does not appear the run ends with that raised
error, performs no capture of either kind and never reaches the 2.5 s
settle sleep; if the body appears, the 2.5 s sleep immediately follows the
body wait in the trace. -/
theorem c7_body_wait (env : Env) (url out sel : String) (hn : env.navErr = none) :
    (∃ l r, (takeScreenshot env url out sel).1 = l ++ Event.waitBody 20 :: r)
    ∧ (∀ e, env.bodyErr = some e →
        (takeScreenshot env url out sel).2 = Outcome.raised e
        ∧ (∀ p, Event.fullCapture p ∉ (takeScreenshot env url out sel).1)
        ∧ (∀ p, Event.elementCapture p ∉ (takeScreenshot env url out sel).1)
        ∧ Event.sleepMs 2500 ∉ (takeScreenshot env url out sel).1)
    ∧ (env.bodyErr = none →
        ∃ l r, (takeScreenshot env url out sel).1
          = l ++ Event.waitBody 20 :: Event.sleepMs 2500 :: r) := by
  refine ⟨?_, ?_, ?_⟩
  · cases hb : env.bodyErr
    · refine ⟨headerEvents url out sel ++ [Event.navigate url],
        Event.sleepMs 2500
          :: ((if sel = "" then fullPage env out else selectorBranch env out sel).1
            ++ [Event.quitSession]), ?_⟩
      simp [takeScreenshot, tryBody, hn, hb]
    · refine ⟨headerEvents url out sel ++ [Event.navigate url], [Event.quitSession], ?_⟩
      simp [takeScreenshot, tryBody, hn, hb]
  · intro e hb
    refine ⟨?_, fun p => ?_, fun p => ?_, ?_⟩ <;>
      by_cases hsel : sel = "" <;>
      simp [takeScreenshot, headerEvents, tryBody, hn, hb, hsel]
  · intro hb
    refine ⟨headerEvents url out sel ++ [Event.navigate url],
      (if sel = "" then fullPage env out else selectorBranch env out sel).1
        ++ [Event.quitSession], ?_⟩
    simp [takeScreenshot, tryBody, hn, hb]

/-- C7 witness: on a run whose body wait times out the outcome is the
raised timeout, no capture events occur and the 2.5 s sleep is never
reached; on a successful run the sleep directly follows the body wait. -/
theorem c7_body_wait_witness :
    (takeScreenshot bodyFailEnv "u" "o.png" "").2 = Outcome.raised "body timeout"
    ∧ Event.sleepMs 2500 ∉ (takeScreenshot bodyFailEnv "u" "o.png" "").1
    ∧ (∃ l r, (takeScreenshot okEnv "u" "o.png" "").1
        = l ++ Event.waitBody 20 :: Event.sleepMs 2500 :: r) := by
  have h1 := c7_body_wait bodyFailEnv "u" "o.png" "" rfl
  have h2 := c7_body_wait okEnv "u" "o.png" "" rfl
  exact ⟨(h1.2.1 "body timeout" rfl).1, (h1.2.1 "body timeout" rfl).2.2.2,
    h2.2.2 rfl⟩

/-! ### C8: defaults with zero arguments -/

/-- C8: with zero arguments the script targets the fixed fallback URL,
writes to "screenshot.png" (already normalized), the selector defaults to
the empty string, and the run takes the full-page path: the full-page
capture targets "screenshot.png" and no selector wait ever occurs. -/
theorem c8_defaults (env : Env) (hn : env.navErr = none) (hb : env.bodyErr = none) :
    parseArgs [] = (defaultUrl, "screenshot.png", "")
    ∧ normalizeOutput "screenshot.png" = "screenshot.png"
    ∧ Event.printTarget defaultUrl ∈ (runMain env []).1
    ∧ Event.fullCapture "screenshot.png" ∈ (runMain env []).1
    ∧ (∀ s t, Event.waitSelector s t ∉ (runMain env []).1) := by
  have hno : normalizeOutput "screenshot.png" = "screenshot.png" := by decide
  have hrm : runMain env [] = takeScreenshot env defaultUrl "screenshot.png" "" := by
    simp [runMain, parseArgs, hno]
  refine ⟨rfl, hno, ?_, ?_, fun s t => ?_⟩ <;> rw [hrm] <;>
    cases hfs : env.fullShotOk <;>
    simp [takeScreenshot, headerEvents, tryBody, fullPage, hn, hb, hfs]

/-- C8 witness: concrete zero-argument run on a successful environment. -/
theorem c8_defaults_witness :
    parseArgs [] = (defaultUrl, "screenshot.png", "")
    ∧ normalizeOutput "screenshot.png" = "screenshot.png"
    ∧ Event.fullCapture "screenshot.png" ∈ (runMain okEnv []).1 := by
  have h := c8_defaults okEnv rfl rfl
  exact ⟨h.1, h.2.1, h.2.2.2.1⟩

/-! ### C9: element capture throwing after the element is found -/

/-- C9 counterexample: with the element found and `element.screenshot`
raising "shot failed", the run does NOT propagate that exception — it is
caught by the same handler as selector-resolution failures: the warning is
printed, full-page fallback runs, and the run returns normally. This
refutes the claim that such a failure is not explicitly handled. -/
theorem c9_counterexample :
    (takeScreenshot elemShotFailEnv "u" "o.png" "#x").2 ≠ Outcome.raised "shot failed"
    ∧ (takeScreenshot elemShotFailEnv "u" "o.png" "#x").2 = Outcome.normal
    ∧ Event.warnSelectorFallback "#x" "shot failed"
        ∈ (takeScreenshot elemShotFailEnv "u" "o.png" "#x").1
    ∧ Event.fullCapture "o.png" ∈ (takeScreenshot elemShotFailEnv "u" "o.png" "#x").1 := by
  decide

/-- C9 (amended): if element capture throws after the matching element has
been found, the exception is caught by the same `except` handler as
selector-resolution failures: a warning naming the selector and the error
is printed and the run falls back to full-page capture on the same
session; element-capture failures never set a distinct exit code of their
own — the outcome is then governed entirely by the full-page path. -/
theorem c9_element_capture_throw_handled (env : Env) (url out sel e : String)
    (hs : sel ≠ "") (hn : env.navErr = none) (hb : env.bodyErr = none)
    (hse : env.selErr = none) (hsc : env.scrollErr = none)
    (hes : env.elemShotErr = some e) :
    (∀ e2, (takeScreenshot env url out sel).2 ≠ Outcome.raised e2)
    ∧ Event.warnSelectorFallback sel e ∈ (takeScreenshot env url out sel).1
    ∧ Event.fullCapture out ∈ (takeScreenshot env url out sel).1
    ∧ (takeScreenshot env url out sel).2
        = (if env.fullShotOk then Outcome.normal else Outcome.exitCode 1) := by
  cases hfs : env.fullShotOk <;>
    simp [takeScreenshot, headerEvents, tryBody, selectorBranch, fullPage,
      hn, hb, hs, hse, hsc, hes, hfs]

/-- C9 amended-claim witness: concrete run in which element capture raises
and the fallback full-page capture succeeds. -/
theorem c9_element_capture_throw_handled_witness :
    Event.warnSelectorFallback "#x" "shot failed"
      ∈ (takeScreenshot elemShotFailEnv "v" "p.png" "#x").1
    ∧ (takeScreenshot elemShotFailEnv "v" "p.png" "#x").2 = Outcome.normal := by
  have h := c9_element_capture_throw_handled elemShotFailEnv "v" "p.png" "#x"
    "shot failed" (by decide) rfl rfl rfl rfl rfl
  exact ⟨h.2.1, by simpa using h.2.2.2⟩

/-! ### C10: no viewport resize on the successful element path -/

/-- C10: the initial session is configured with a 1440x900 window, and on
a successful element-targeted run no window-resize operation ever occurs;
the resize is performed only by the full-page routine, which sets exactly
the computed total width x height. -/
theorem c10_no_resize_on_element_path (env : Env) (url out sel : String)
    (hs : sel ≠ "") (hn : env.navErr = none) (hb : env.bodyErr = none)
    (hse : env.selErr = none) (hsc : env.scrollErr = none)
    (hes : env.elemShotErr = none) :
    ("--window-size=1440,900" ∈ buildOptions)
    ∧ (∀ w h, Event.setWindowSize w h ∉ (takeScreenshot env url out sel).1)
    ∧ Event.setWindowSize (totalWidth env) (totalHeight env) ∈ (fullPage env out).1 := by
  refine ⟨by decide, fun w h => ?_, ?_⟩
  · simp [takeScreenshot, headerEvents, tryBody, selectorBranch,
      hn, hb, hs, hse, hsc, hes]
  · cases hfs : env.fullShotOk <;> simp [fullPage, hfs]

/-- C10 witness: concrete successful element-targeted run performs no
window resize, while the full-page routine on the same environment resizes
to 2000 x 5000. -/
theorem c10_no_resize_on_element_path_witness :
    ("--window-size=1440,900" ∈ buildOptions)
    ∧ (∀ w h, Event.setWindowSize w h ∉ (takeScreenshot okEnv "u" "o.png" "#main").1)
    ∧ Event.setWindowSize 2000 5000 ∈ (fullPage okEnv "o.png").1 := by
  have h := c10_no_resize_on_element_path okEnv "u" "o.png" "#main"
    (by decide) rfl rfl rfl rfl rfl
  refine ⟨h.1, h.2.1, ?_⟩
  have hw : totalWidth okEnv = 2000 := by decide
  have hh : totalHeight okEnv = 5000 := by decide
  have := h.2.2
  rwa [hw, hh] at this

end Screenshot
